import Mathlib

/-!
Verification of the bingo sheet generator (src/bingo.py).

The embedding is shallow: each Python function is translated into a Lean
definition.  The only external effect of the core, the randomness source
used by random.shuffle, is made explicit: every definition that shuffles
receives the resulting permutation as an argument, and theorems assume it
is a permutation of the list being shuffled.  Mutation of the caller
visible data (random.shuffle mutates the statements list in place) is
modelled by returning the post-call pool alongside the result.
-/

namespace Bingo

/-- The data dict loaded from the json file: keys title, header, statements
(src/bingo.py lines 14-33). -/
structure Pool where
  title : String
  header : String
  statements : List String
deriving DecidableEq, Repr

/-- The dict returned by create_sheet: title, header, and a 2d list of
statements (src/bingo.py line 52). -/
structure Sheet where
  title : String
  header : String
  statements : List (List String)
deriving DecidableEq, Repr

instance : Inhabited Sheet := ⟨⟨"", "", []⟩⟩

/-- The message of the ValueError raised in create_sheet (lines 38-40). -/
def insufficient_message (amount available : Nat) : String :=
  "Not enough statements to fill the bingo sheet. Need " ++ toString amount ++
    " but only have " ++ toString available

/-- The nested loop of create_sheet (lines 45-50): row i, column j holds
statements[i * size + j]. -/
def buildGrid (statements : List String) (size : Nat) : List (List String) :=
  (List.range size).map fun i =>
    (List.range size).map fun j => statements.getD (i * size + j) ""

/-- create_sheet (src/bingo.py lines 14-52).  `shuffled` is the list
produced by random.shuffle(statements); the caller-supplied data dict is
mutated by that in-place shuffle, so the function returns the resulting
pool as the second component (on the error path the shuffle never runs and
the pool is untouched). -/
def create_sheet (data : Pool) (shuffled : List String) (size : Nat) :
    Except String Sheet × Pool :=
  let amount := size * size
  if data.statements.length < amount then
    (.error (insufficient_message amount data.statements.length), data)
  else
    (.ok { title := data.title, header := data.header,
           statements := buildGrid (shuffled.take amount) size },
     { data with statements := shuffled })

/-- create_sheets (src/bingo.py lines 55-72), with the stream of shuffle
results made explicit: `shuffles k` is the permutation produced by the
k-th call to random.shuffle overall, and the draw counter `k` is threaded
through.  Returns the sheets (or the first error), the pool after all the
in-place shuffles, and the next draw counter. -/
def create_sheets (size : Nat) (shuffles : Nat → List String) :
    Nat → Nat → Pool → Except String (List Sheet) × Pool × Nat
  | 0, k, data => (.ok [], data, k)
  | amount + 1, k, data =>
      let r := create_sheet data (shuffles k) size
      match r.1 with
      | .error e => (.error e, r.2, k)
      | .ok s =>
          let rest := create_sheets size shuffles amount (k + 1) r.2
          match rest.1 with
          | .error e => (.error e, rest.2.1, rest.2.2)
          | .ok l => (.ok (s :: l), rest.2.1, rest.2.2)

/-- check_uniqueness (src/bingo.py lines 75-104): flatten the 2d grid of
each sheet row-major and report False iff some pair of positions i < j
holds equal flattened lists. -/
def check_uniqueness (sheets : List Sheet) : Bool :=
  if sheets.length < 2 then true
  else
    let statements := sheets.map fun sheet => sheet.statements.flatten
    (List.range statements.length).all fun i =>
      (List.range statements.length).all fun j =>
        !(decide (i < j) && decide (statements.getD i [] = statements.getD j []))

/-- Floor of the square root, the value of int(np.sqrt(n)) in create_pdf
(lines 130-131); the float square root is exact on the small values a
grid can have, so the floor is the right model. -/
def int_sqrt (n : Nat) : Nat :=
  ((List.range (n + 1)).filter fun m => decide (m * m ≤ n)).getLastD 0

/-- One drawing instruction sent to the fpdf canvas by create_pdf. -/
inductive CanvasOp where
  | cell (width height : ℚ) (text : String)
  | multi_cell (width height : ℚ) (text : String)
  | ln
  | add_page
deriving DecidableEq, Repr

/-- grid_size as computed by create_pdf (lines 130-131): the floor square
root of the LENGTH of the 2d statements list of the first sheet, that is
of the number of rows. -/
def grid_size (sheets : List Sheet) : Nat :=
  int_sqrt (sheets.headD default).statements.length

/-- cell_width = 95 / grid_size (line 132). -/
def cell_width (sheets : List Sheet) : ℚ :=
  95 / (grid_size sheets : ℚ)

/-- cell_height = 40 / grid_size (line 133). -/
def cell_height (sheets : List Sheet) : ℚ :=
  40 / (grid_size sheets : ℚ)

/-- The drawing instructions of one iteration of the sheet loop of
create_pdf (lines 143-190), page breaks excluded: the title cell, the
header multi_cell, then one bordered multi_cell per grid entry with a
line feed after each row.  Cursor management (set_y, get_y) is handled by
the external canvas and is not part of the trace. -/
def render_sheet (sheet : Sheet) (cw ch : ℚ) : List CanvasOp :=
  [CanvasOp.cell 200 10 sheet.title, CanvasOp.multi_cell 200 10 sheet.header] ++
    (sheet.statements.map fun row =>
      (row.map fun statement => CanvasOp.multi_cell cw ch statement) ++
        [CanvasOp.ln]).flatten

/-- The sheet loop of create_pdf (lines 143-194): after the sheet at
0-based index t, a page break is issued when (t + 1) % 2 == 0. -/
def pdf_loop (cw ch : ℚ) : Nat → List Sheet → List CanvasOp
  | _, [] => []
  | t, sheet :: rest =>
      render_sheet sheet cw ch ++
        (if (t + 1) % 2 = 0 then [CanvasOp.add_page] else []) ++
        pdf_loop cw ch (t + 1) rest

/-- create_pdf (lines 107-196) as the trace of canvas instructions of its
sheet loop.  The initial pdf.add_page() of line 119 creates the first
page before any sheet is rendered and is not a break between sheets, so
it is not part of the trace. -/
def create_pdf (sheets : List Sheet) : List CanvasOp :=
  pdf_loop (cell_width sheets) (cell_height sheets) 0 sheets

/-- Number of page breaks issued while rendering a batch. -/
def page_breaks (sheets : List Sheet) : Nat :=
  (create_pdf sheets).countP fun op => decide (op = CanvasOp.add_page)

/-- Observable outcome of the retry loop of main (lines 216-234):
pdf_written is the batch passed on to create_pdf when the loop exits via
break; history lists every batch generated, in order; gen_failed records
whether the final failure message ("... Saving last attempt.") was
printed; error carries a propagated exception message. -/
structure MainOutcome where
  pdf_written : Option (List Sheet)
  history : List (List Sheet)
  gen_failed : Bool
  error : Option String
deriving DecidableEq, Repr

/-- The retry loop of main (src/bingo.py lines 216-234).  `t` is the loop
variable of `for _ in range(max_tries)`, `k` the global shuffle counter,
and `fuel` the number of iterations left (max_tries - t at every call
from the entry point).  On a uniqueness success the loop breaks and main
calls create_pdf(sheets); when the check fails on the last iteration main
prints the failure message and returns WITHOUT calling create_pdf. -/
def main_loop (size amount max_tries : Nat) (shuffles : Nat → List String) :
    Nat → Nat → Nat → Pool → MainOutcome × Pool × Nat
  | _, k, 0, data =>
      (⟨none, [], false, some "NameError: name sheets is not defined"⟩, data, k)
  | t, k, fuel + 1, data =>
      let r := create_sheets size shuffles amount k data
      match r.1 with
      | .error e => (⟨none, [], false, some e⟩, r.2.1, r.2.2)
      | .ok sheets =>
          if check_uniqueness sheets then
            (⟨some sheets, [sheets], false, none⟩, r.2.1, r.2.2)
          else if t = max_tries - 1 then
            (⟨none, [sheets], true, none⟩, r.2.1, r.2.2)
          else
            let rest := main_loop size amount max_tries shuffles (t + 1) r.2.2 fuel r.2.1
            (⟨rest.1.pdf_written, sheets :: rest.1.history, rest.1.gen_failed, rest.1.error⟩,
              rest.2)

/-- Entry point of the retry loop: t = 0, draw counter 0, full budget. -/
def main_gen (size amount max_tries : Nat) (shuffles : Nat → List String)
    (data : Pool) : MainOutcome × Pool × Nat :=
  main_loop size amount max_tries shuffles 0 0 max_tries data

/-- The batch that a run of create_sheets starting at draw counter k
produces when every shuffle succeeds: sheet j is built solely from the
shuffle of draw k + j (fresh draws, no sheet carried over). -/
def fresh_batch (data : Pool) (shuffles : Nat → List String) (size : Nat) :
    Nat → Nat → List Sheet
  | 0, _ => []
  | amount + 1, k =>
      { title := data.title, header := data.header,
        statements := buildGrid ((shuffles k).take (size * size)) size } ::
        fresh_batch data shuffles size amount (k + 1)

/-! Concrete inputs used by witnesses and counterexamples. -/

/-- A pool of two distinct statements. -/
def poolAB : Pool := ⟨"T", "H", ["a", "b"]⟩

/-- A pool whose statements list contains the same statement four times;
the spec allows duplicate statements on input. -/
def dupPool : Pool := ⟨"T", "H", ["a", "a", "a", "a"]⟩

/-- A pool of 10 statements (the concrete failure scenario of the spec). -/
def pool10 : Pool :=
  ⟨"T", "H", ["s1", "s2", "s3", "s4", "s5", "s6", "s7", "s8", "s9", "s10"]⟩

/-- The 16 statement pool A..P of the concrete scenario of the spec. -/
def pool16 : Pool :=
  ⟨"T", "H",
   ["A", "B", "C", "D", "E", "F", "G", "H",
    "I", "J", "K", "L", "M", "N", "O", "P"]⟩

/-- A sheet with a 4 x 4 grid, as created with the default size = 4. -/
def sheetABCD : Sheet :=
  ⟨"Bingo", "Mark every statement that applies",
   [["A", "B", "C", "D"], ["E", "F", "G", "H"],
    ["I", "J", "K", "L"], ["M", "N", "O", "P"]]⟩

/-- A batch of two sheets (even amount). -/
def twoSheets : List Sheet := [sheetABCD, sheetABCD]

/-- Two sheets with identical grids but different titles and headers. -/
def sheetT1 : Sheet := ⟨"Title one", "Header one", [["x"]]⟩

/-- Second sheet of the pair: same grid, other title and header. -/
def sheetT2 : Sheet := ⟨"Title two", "Header two", [["x"]]⟩

/-- A one statement pool: with amount 2 every generated pair of sheets is
identical, so the uniqueness check can never pass. -/
def poolX : Pool := ⟨"T", "H", ["x"]⟩

/-- The only shuffle result a one statement pool admits. -/
def shufX : Nat → List String := fun _ => ["x"]

/-! Helper lemmas about the grid construction. -/

/-- A row of buildGrid is a contiguous slice of the statements list. -/
theorem map_range_getD (l : List String) (d : String) (m o : Nat)
    (h : o + m ≤ l.length) :
    (List.range m).map (fun j => l.getD (o + j) d) = (l.drop o).take m := by
  apply List.ext_getElem
  · simp
    omega
  · intro n h1 h2
    have hn : n < m := by simpa using h1
    have hb : o + n < l.length := by omega
    simp only [List.getElem_map, List.getElem_range, List.getElem_take, List.getElem_drop]
    exact List.getD_eq_getElem l d hb

/-- Flattening rows that are consecutive slices of width k recovers the
first n * k elements. -/
theorem flatten_take_rows (l : List String) (k : Nat) :
    ∀ n : Nat, ((List.range n).map fun i => (l.drop (i * k)).take k).flatten =
      l.take (n * k)
  | 0 => by simp
  | n + 1 => by
    rw [List.range_succ, List.map_append, List.flatten_append, flatten_take_rows l k n]
    simp [Nat.succ_mul, List.take_add]

/-- The row major flattening of buildGrid is the first size * size
elements of the statements list. -/
theorem buildGrid_flatten (l : List String) (size : Nat)
    (h : size * size ≤ l.length) :
    (buildGrid l size).flatten = l.take (size * size) := by
  have hrows : buildGrid l size =
      (List.range size).map fun i => (l.drop (i * size)).take size := by
    unfold buildGrid
    apply List.map_congr_left
    intro i hi
    rw [List.mem_range] at hi
    have h1 : (i + 1) * size ≤ size * size := Nat.mul_le_mul_right size hi
    have h2 : (i + 1) * size = i * size + size := Nat.succ_mul i size
    exact map_range_getD l "" size (i * size) (by omega)
  rw [hrows, flatten_take_rows]

/-- Entry (i, j) of buildGrid is statements[i * size + j]. -/
theorem buildGrid_getD (l : List String) (size i j : Nat)
    (hi : i < size) (hj : j < size) :
    ((buildGrid l size).getD i []).getD j "" = l.getD (i * size + j) "" := by
  have h1 : (buildGrid l size).getD i [] =
      (List.range size).map fun j => l.getD (i * size + j) "" := by
    unfold buildGrid
    rw [List.getD_eq_getElem _ _ (by simpa using hi)]
    simp
  rw [h1, List.getD_eq_getElem _ _ (by simpa using hj)]
  simp

/-- The flattening of the grid built from the first size * size elements
of the shuffled list is exactly that prefix. -/
theorem buildGrid_take_flatten (shuffled : List String) (size : Nat)
    (h : size * size ≤ shuffled.length) :
    (buildGrid (shuffled.take (size * size)) size).flatten =
      shuffled.take (size * size) := by
  rw [buildGrid_flatten _ _ (by simp; omega), List.take_take]
  simp

/-- On a pool with enough statements create_sheet takes the ok branch,
builds the grid from the shuffle prefix, and leaves the shuffled list in
the pool. -/
theorem create_sheet_ok (data : Pool) (shuffled : List String) (size : Nat)
    (h : size * size ≤ data.statements.length) :
    create_sheet data shuffled size =
      (.ok { title := data.title, header := data.header,
             statements := buildGrid (shuffled.take (size * size)) size },
       { data with statements := shuffled }) := by
  simp [create_sheet, Nat.not_lt.mpr h]

/-- Claim C1 (amended): for every pool with at least size * size statements,
every size at least 1, and every permutation the shuffle can produce,
create_sheet returns a sheet whose grid is a size by size array holding
exactly size * size cells, each cell an element of pool.statements; the
cells are the first size * size entries of the permutation, so no pool
position is drawn twice, and whenever pool.statements itself has no
duplicate entries no statement is repeated within the sheet. -/
theorem create_sheet_fills_grid (data : Pool) (shuffled : List String) (size : Nat)
    (hsize : 1 ≤ size) (hlen : size * size ≤ data.statements.length)
    (hperm : shuffled.Perm data.statements) :
    ∃ s : Sheet, (create_sheet data shuffled size).1 = .ok s ∧
      s.statements.length = size ∧
      (∀ row ∈ s.statements, row.length = size) ∧
      s.statements.flatten.length = size * size ∧
      (∀ c ∈ s.statements.flatten, c ∈ data.statements) ∧
      s.statements.flatten = shuffled.take (size * size) ∧
      (data.statements.Nodup → s.statements.flatten.Nodup) := by
  have hlen2 : size * size ≤ shuffled.length := by
    rw [hperm.length_eq]; exact hlen
  have hok := create_sheet_ok data shuffled size hlen
  have hfl := buildGrid_take_flatten shuffled size hlen2
  refine ⟨_, by rw [hok], ?_, ?_, ?_, ?_, ?_, ?_⟩
  · simp [buildGrid]
  · intro row hrow
    simp only [buildGrid, List.mem_map] at hrow
    obtain ⟨i, _, hrow⟩ := hrow
    simp [← hrow]
  · rw [hfl]
    simp
    omega
  · intro c hc
    rw [hfl] at hc
    exact hperm.subset (List.take_subset _ _ hc)
  · exact hfl
  · intro hnd
    rw [hfl]
    exact List.Nodup.sublist (List.take_sublist _ _) (hperm.symm.nodup hnd)

/-- Claim C1 counterexample: the claim as stated fails when the pool itself
contains a duplicated statement.  dupPool has 4 statements (enough for
size 2), the shuffle returns a valid permutation, yet the resulting sheet
repeats the statement a in every cell. -/
theorem create_sheet_repeats_cex :
    List.Perm ["a", "a", "a", "a"] dupPool.statements ∧
    2 * 2 ≤ dupPool.statements.length ∧
    (create_sheet dupPool ["a", "a", "a", "a"] 2).1 =
      .ok ⟨"T", "H", [["a", "a"], ["a", "a"]]⟩ ∧
    ¬ (Sheet.mk "T" "H" [["a", "a"], ["a", "a"]]).statements.flatten.Nodup := by
  exact ⟨by decide, by decide, by rfl, by decide⟩

/-- Witness for the amended C1 theorem at the 16 statement pool with the
identity permutation and size 4. -/
theorem create_sheet_fills_grid_witness :
    ∃ s : Sheet, (create_sheet pool16 pool16.statements 4).1 = Except.ok s ∧
      s.statements.flatten.length = 4 * 4 := by
  obtain ⟨s, h1, _, _, h4, _⟩ :=
    create_sheet_fills_grid pool16 pool16.statements 4 (by decide) (by decide)
      (List.Perm.refl _)
  exact ⟨s, h1, h4⟩

/-- Claim C2 (confirmed): create_sheet fails with the insufficient data error,
naming the required and the available count, exactly when the pool has
fewer than size * size statements; with enough statements it returns a
sheet.  On the concrete scenario of the spec (10 statements, size 4) the
error message reads that 16 are needed but only 10 are there. -/
theorem create_sheet_error_spec :
    (∀ (data : Pool) (shuffled : List String) (size : Nat),
      ((create_sheet data shuffled size).1 =
          .error (insufficient_message (size * size) data.statements.length) ↔
        data.statements.length < size * size) ∧
      (size * size ≤ data.statements.length →
        ∃ s : Sheet, (create_sheet data shuffled size).1 = .ok s)) ∧
    (create_sheet pool10 pool10.statements 4).1 =
      .error "Not enough statements to fill the bingo sheet. Need 16 but only have 10" := by
  constructor
  · intro data shuffled size
    constructor
    · constructor
      · intro h
        by_contra hlt
        push_neg at hlt
        rw [create_sheet_ok data shuffled size hlt] at h
        simp at h
      · intro h
        simp [create_sheet, h]
    · intro h
      exact ⟨_, by rw [create_sheet_ok data shuffled size h]⟩
  · rfl

/-- Witness for C2 at the 16 statement pool with size 4: no error. -/
theorem create_sheet_error_spec_witness :
    ∃ s : Sheet, (create_sheet pool16 pool16.statements 4).1 = Except.ok s :=
  (create_sheet_error_spec.1 pool16 pool16.statements 4).2 (by decide)

/-- Claim C3 counterexample: random.shuffle mutates the statements list of the
data dict in place, so after a successful create_sheet call the pool
order can differ from the order before the call. -/
theorem create_sheet_mutates_pool_cex :
    List.Perm ["b", "a"] poolAB.statements ∧
    (create_sheet poolAB ["b", "a"] 1).1 = .ok ⟨"T", "H", [["b"]]⟩ ∧
    (create_sheet poolAB ["b", "a"] 1).2.statements ≠ poolAB.statements :=
  ⟨by decide, by rfl, by decide⟩

/-- Claim C3 (amended): create_sheet keeps the pool title and header and the
multiset of statements, but on the success path it reorders the
statements list in place to the shuffled permutation; on the
insufficient data path the pool is entirely unchanged. -/
theorem create_sheet_pool_effect (data : Pool) (shuffled : List String) (size : Nat)
    (hperm : shuffled.Perm data.statements) :
    (create_sheet data shuffled size).2.title = data.title ∧
    (create_sheet data shuffled size).2.header = data.header ∧
    (create_sheet data shuffled size).2.statements.Perm data.statements ∧
    (data.statements.length < size * size →
      (create_sheet data shuffled size).2 = data) := by
  by_cases h : data.statements.length < size * size
  · have hb : create_sheet data shuffled size =
        (.error (insufficient_message (size * size) data.statements.length), data) := by
      simp [create_sheet, h]
    rw [hb]
    exact ⟨rfl, rfl, List.Perm.refl _, fun _ => rfl⟩
  · push_neg at h
    rw [create_sheet_ok data shuffled size h]
    refine ⟨rfl, rfl, hperm, fun hlt => absurd hlt (Nat.not_lt.mpr h)⟩

/-- Witness for the amended C3 theorem on a concrete pool and shuffle. -/
theorem create_sheet_pool_effect_witness :
    (create_sheet poolAB ["b", "a"] 1).2.statements.Perm poolAB.statements :=
  (create_sheet_pool_effect poolAB ["b", "a"] 1 (by decide)).2.2.1

/-- Claim C4 (confirmed): for every permutation chosen by the randomness
source, create_sheet selects its first size * size elements (the
flattened grid is exactly that prefix) and element k lands at row
k / size, column k % size of the grid. -/
theorem create_sheet_placement (data : Pool) (shuffled : List String) (size k : Nat)
    (hperm : shuffled.Perm data.statements)
    (hlen : size * size ≤ data.statements.length) (hk : k < size * size) :
    ∃ s : Sheet, (create_sheet data shuffled size).1 = .ok s ∧
      s.statements.flatten = shuffled.take (size * size) ∧
      (s.statements.getD (k / size) []).getD (k % size) "" = shuffled.getD k "" := by
  have hpos : 0 < size := by
    rcases Nat.eq_zero_or_pos size with h0 | h0
    · subst h0; simp at hk
    · exact h0
  have hlen2 : size * size ≤ shuffled.length := by
    rw [hperm.length_eq]; exact hlen
  have hok := create_sheet_ok data shuffled size hlen
  refine ⟨_, by rw [hok], buildGrid_take_flatten shuffled size hlen2, ?_⟩
  rw [buildGrid_getD _ _ _ _ ((Nat.div_lt_iff_lt_mul hpos).mpr hk) (Nat.mod_lt _ hpos)]
  have hidx : k / size * size + k % size = k := by
    rw [Nat.mul_comm]
    exact Nat.div_add_mod k size
  rw [hidx, List.getD_eq_getElem _ _ (by simp; omega),
    List.getD_eq_getElem _ _ (by omega), List.getElem_take]

/-- Witness for C4: with the identity permutation on the 16 statement
pool and size 4, element 5 lands at row 1, column 1. -/
theorem create_sheet_placement_witness :
    ∃ s : Sheet, (create_sheet pool16 pool16.statements 4).1 = Except.ok s ∧
      s.statements.flatten = pool16.statements.take (4 * 4) ∧
      (s.statements.getD (5 / 4) []).getD (5 % 4) "" = pool16.statements.getD 5 "" :=
  create_sheet_placement pool16 pool16.statements 4 5 (List.Perm.refl _)
    (by decide) (by decide)

/-- For batches of two or more sheets, the uniqueness check succeeds iff
every pair of positions i < j holds different flattened grids. -/
theorem check_uniqueness_true_iff (sheets : List Sheet) (h2 : ¬ sheets.length < 2) :
    check_uniqueness sheets = true ↔
      ∀ i < sheets.length, ∀ j < sheets.length, i < j →
        (sheets.map fun s => s.statements.flatten).getD i [] ≠
          (sheets.map fun s => s.statements.flatten).getD j [] := by
  simp [check_uniqueness, if_neg h2, Decidable.not_and_iff_or_not]
  constructor
  · intro h i hi j hj hij
    rcases h i hi j hj with h1 | h1
    · omega
    · exact h1
  · intro h i hi j hj
    by_cases hij : j ≤ i
    · exact Or.inl hij
    · exact Or.inr (h i hi j hj (by omega))

/-- Claim C5 (confirmed): the batch uniqueness check returns True on every
batch of at most one sheet, and in general it returns False exactly when
two positions of the batch hold sheets with equal flattened row major
grid contents; equality is positional, so two sheets holding the same
set of statements in different cells are not duplicates. -/
theorem check_uniqueness_spec (sheets : List Sheet) :
    (sheets.length ≤ 1 → check_uniqueness sheets = true) ∧
    (check_uniqueness sheets = false ↔
      ∃ i j, ∃ hi : i < sheets.length, ∃ hj : j < sheets.length, i < j ∧
        (sheets.get ⟨i, hi⟩).statements.flatten =
          (sheets.get ⟨j, hj⟩).statements.flatten) := by
  by_cases h2 : sheets.length < 2
  · refine ⟨fun _ => by simp [check_uniqueness, h2], ?_⟩
    constructor
    · intro h
      simp [check_uniqueness, h2] at h
    · rintro ⟨i, j, hi, hj, hij, -⟩
      omega
  · refine ⟨fun hle => absurd hle (by omega), ?_⟩
    have hget : ∀ (n : Nat) (hn : n < sheets.length),
        (sheets.map fun s => s.statements.flatten).getD n [] =
          (sheets.get ⟨n, hn⟩).statements.flatten := by
      intro n hn
      rw [List.getD_eq_getElem _ _ (by simpa using hn), List.getElem_map]
      rfl
    rw [Bool.eq_false_iff, Ne, check_uniqueness_true_iff sheets h2]
    push_neg
    constructor
    · rintro ⟨i, hi, j, hj, hij, heq⟩
      exact ⟨i, j, hi, hj, hij, by rw [← hget i hi, ← hget j hj]; exact heq⟩
    · rintro ⟨i, j, hi, hj, hij, heq⟩
      exact ⟨i, hi, j, hj, hij, by rw [hget i hi, hget j hj]; exact heq⟩

/-- Witness for C5 on the empty batch. -/
theorem check_uniqueness_spec_witness : check_uniqueness [] = true :=
  (check_uniqueness_spec []).1 (by decide)

/-- Claim C10 (confirmed): the uniqueness check reads nothing but the sheets
2d statements grids, so two batches whose sheets carry pairwise equal
grids get the same verdict whatever their titles and headers are. -/
theorem check_uniqueness_grid_only (s t : List Sheet)
    (h : s.map Sheet.statements = t.map Sheet.statements) :
    check_uniqueness s = check_uniqueness t := by
  have hlen : s.length = t.length := by
    have hl := congrArg List.length h
    simpa using hl
  have hfl : (s.map fun x => x.statements.flatten) =
      t.map fun x => x.statements.flatten := by
    have h1 : (s.map Sheet.statements).map List.flatten =
        (t.map Sheet.statements).map List.flatten := by rw [h]
    simpa [List.map_map, Function.comp] using h1
  simp only [check_uniqueness, hlen, hfl]

/-- Witness for C10: two sheets with the same single cell grid but
different titles and headers still count as duplicates. -/
theorem check_uniqueness_grid_only_witness :
    check_uniqueness [sheetT1, sheetT2] = check_uniqueness [sheetT1, sheetT1] ∧
    check_uniqueness [sheetT1, sheetT2] = false :=
  ⟨check_uniqueness_grid_only [sheetT1, sheetT2] [sheetT1, sheetT1] (by decide),
   by decide⟩

/-- Rendering one sheet issues no page break: every instruction is a
title cell, a header or grid multi_cell, or a line feed. -/
theorem add_page_not_mem_render (sheet : Sheet) (cw ch : ℚ) :
    CanvasOp.add_page ∉ render_sheet sheet cw ch := by
  simp [render_sheet]

/-- The per sheet instructions contribute no add_page to the count. -/
theorem render_sheet_countP (sheet : Sheet) (cw ch : ℚ) :
    (render_sheet sheet cw ch).countP (fun op => decide (op = CanvasOp.add_page)) = 0 :=
  List.countP_eq_zero.mpr fun op hop => by
    simpa using ne_of_mem_of_not_mem hop (add_page_not_mem_render sheet cw ch)

/-- The sheet loop starting at index t on l sheets issues one break per
odd index, that is (t + l.length) / 2 - t / 2 of them. -/
theorem pdf_loop_countP (cw ch : ℚ) :
    ∀ (l : List Sheet) (t : Nat),
      (pdf_loop cw ch t l).countP (fun op => decide (op = CanvasOp.add_page)) =
        (t + l.length) / 2 - t / 2
  | [], t => by simp [pdf_loop]
  | sheet :: rest, t => by
    rw [pdf_loop, List.countP_append, List.countP_append,
      pdf_loop_countP cw ch rest (t + 1), render_sheet_countP]
    by_cases hpar : (t + 1) % 2 = 0
    · simp only [if_pos hpar, List.countP_cons, List.countP_nil, List.length_cons]
      simp
      omega
    · simp only [if_neg hpar, List.countP_nil, List.length_cons]
      omega

/-- The trace of a nonempty batch is nonempty. -/
theorem pdf_loop_ne_nil (cw ch : ℚ) (t : Nat) (l : List Sheet) (h : l ≠ []) :
    pdf_loop cw ch t l ≠ [] := by
  cases l with
  | nil => exact absurd rfl h
  | cons sheet rest => simp [pdf_loop, render_sheet]

/-- When the number of sheets rendered from index t on brings the total
to an even count, the trace ends with the page break issued after the
last sheet. -/
theorem pdf_loop_getLast (cw ch : ℚ) :
    ∀ (l : List Sheet) (t : Nat), l ≠ [] → (t + l.length) % 2 = 0 →
      (pdf_loop cw ch t l).getLast? = some CanvasOp.add_page
  | [], _, h, _ => absurd rfl h
  | [sheet], t, _, hpar => by
    have h1 : (t + 1) % 2 = 0 := by simpa using hpar
    have hb : pdf_loop cw ch t [sheet] =
        render_sheet sheet cw ch ++ [CanvasOp.add_page] := by
      simp [pdf_loop, h1]
    rw [hb, List.getLast?_concat]
  | sheet :: s2 :: rest, t, _, hpar => by
    have hrec : pdf_loop cw ch (t + 1) (s2 :: rest) ≠ [] :=
      pdf_loop_ne_nil cw ch (t + 1) (s2 :: rest) (by simp)
    rw [pdf_loop, List.getLast?_append_of_ne_nil _ hrec]
    refine pdf_loop_getLast cw ch (s2 :: rest) (t + 1) (by simp) ?_
    simp only [List.length_cons] at hpar ⊢
    omega

/-- Claim C8 (code bug): the spec says the cell width and height are fixed
budgets (95 and 40) divided by the grid side length; create_pdf divides
by int(sqrt(len(sheets[0]["statements"]))), and that length is the
number of ROWS of the 2d grid, i.e. the side length itself, so the
divisor is int(sqrt(size)).  For the default size 4 the divisor is 2 and
the cells drawn are 47.5 x 20 instead of 23.75 x 10. -/
theorem cell_size_uses_sqrt_of_row_count :
    grid_size [sheetABCD] = 2 ∧
    cell_width [sheetABCD] = 95 / 2 ∧
    cell_height [sheetABCD] = 40 / 2 ∧
    cell_width [sheetABCD] ≠ 95 / 4 ∧
    cell_height [sheetABCD] ≠ 40 / 4 ∧
    CanvasOp.multi_cell (cell_width [sheetABCD]) (cell_height [sheetABCD]) "A" ∈
      create_pdf [sheetABCD] := by
  have hg : grid_size [sheetABCD] = 2 := by decide
  refine ⟨hg, ?_, ?_, ?_, ?_, ?_⟩
  · simp only [cell_width, hg]
    norm_num
  · simp only [cell_height, hg]
    norm_num
  · simp only [cell_width, hg]
    norm_num
  · simp only [cell_height, hg]
    norm_num
  · simp [create_pdf, pdf_loop, render_sheet, sheetABCD]

/-- Claim C9 (amended): the loop issues a page break after every second sheet,
including after the final sheet when the amount is even, so the number
of breaks is exactly floor(amount / 2) and for a nonempty even batch the
trace ends with a page break (producing a trailing blank page). -/
theorem page_breaks_spec (sheets : List Sheet) (h : sheets ≠ []) :
    page_breaks sheets = sheets.length / 2 ∧
    (sheets.length % 2 = 0 →
      (create_pdf sheets).getLast? = some CanvasOp.add_page) := by
  constructor
  · simp only [page_breaks, create_pdf]
    rw [pdf_loop_countP]
    omega
  · intro hpar
    simp only [create_pdf]
    exact pdf_loop_getLast _ _ sheets 0 h (by simpa using hpar)

/-- Claim C9 counterexample: on a batch of two sheets the code issues one page
break, after the final sheet even though it has no successor; the claim
predicts floor(2 / 2) - 1 = 0 breaks and none after the final sheet. -/
theorem page_break_after_final_sheet_cex :
    page_breaks twoSheets = 1 ∧
    ¬ page_breaks twoSheets = twoSheets.length / 2 - 1 ∧
    (create_pdf twoSheets).getLast? = some CanvasOp.add_page := by
  refine ⟨by decide, by decide, by decide⟩

/-- Witness for the amended C9 theorem on the two sheet batch. -/
theorem page_breaks_spec_witness :
    page_breaks twoSheets = twoSheets.length / 2 ∧
    (create_pdf twoSheets).getLast? = some CanvasOp.add_page :=
  ⟨(page_breaks_spec twoSheets (by decide)).1,
   (page_breaks_spec twoSheets (by decide)).2 (by decide)⟩

/-- Sheet j of a fresh batch starting at draw k is built from the
shuffle of draw k + j. -/
theorem fresh_batch_getD (data : Pool) (shuffles : Nat → List String) (size : Nat) :
    ∀ (amount k j : Nat), j < amount →
      (fresh_batch data shuffles size amount k).getD j default =
        { title := data.title, header := data.header,
          statements := buildGrid ((shuffles (k + j)).take (size * size)) size }
  | 0, _, j, hj => absurd hj (by omega)
  | amount + 1, k, 0, _ => by simp [fresh_batch]
  | amount + 1, k, j + 1, hj => by
    have ih := fresh_batch_getD data shuffles size amount (k + 1) j (by omega)
    have harith : k + 1 + j = k + (j + 1) := by omega
    rw [harith] at ih
    simpa [fresh_batch] using ih

/-- A fresh batch of amount sheets has amount sheets. -/
theorem fresh_batch_length (data : Pool) (shuffles : Nat → List String) (size : Nat) :
    ∀ (amount k : Nat), (fresh_batch data shuffles size amount k).length = amount
  | 0, _ => rfl
  | amount + 1, k => by
    simp [fresh_batch, fresh_batch_length data shuffles size amount (k + 1)]

/-- When the pool has enough statements for one sheet, create_sheets
succeeds, builds sheet j of the batch from the shuffle of draw k + j
alone, advances the draw counter by amount, and leaves a pool with the
same title, header and statement multiset. -/
theorem create_sheets_ok (size : Nat) (shuffles : Nat → List String) (data0 : Pool)
    (hsh : ∀ i, (shuffles i).Perm data0.statements)
    (hlen : size * size ≤ data0.statements.length) :
    ∀ (amount k : Nat) (data : Pool),
      data.title = data0.title → data.header = data0.header →
      data.statements.Perm data0.statements →
      (create_sheets size shuffles amount k data).1 =
          .ok (fresh_batch data0 shuffles size amount k) ∧
      (create_sheets size shuffles amount k data).2.2 = k + amount ∧
      (create_sheets size shuffles amount k data).2.1.title = data0.title ∧
      (create_sheets size shuffles amount k data).2.1.header = data0.header ∧
      (create_sheets size shuffles amount k data).2.1.statements.Perm data0.statements
  | 0, k, data, ht, hh, hp => by
    exact ⟨rfl, rfl, ht, hh, hp⟩
  | amount + 1, k, data, ht, hh, hp => by
    have hlen2 : size * size ≤ data.statements.length := by
      rw [hp.length_eq]; exact hlen
    obtain ⟨ih1, ih2, ih3, ih4, ih5⟩ :=
      create_sheets_ok size shuffles data0 hsh hlen amount (k + 1)
        { data with statements := shuffles k } ht hh (hsh k)
    have hstep := create_sheet_ok data (shuffles k) size hlen2
    rw [ht, hh] at hstep ih1 ih2 ih3 ih4 ih5
    refine ⟨?_, ?_, ?_, ?_, ?_⟩
    · simp only [create_sheets, hstep, ih1, fresh_batch]
    · simp only [create_sheets, hstep, ih1, ih2]
      omega
    · simp only [create_sheets, hstep, ih1, ih3]
    · simp only [create_sheets, hstep, ih1, ih4]
    · simp only [create_sheets, hstep, ih1]
      exact ih5

/-- Invariant of the retry loop: with fuel iterations left it generates
at most fuel batches, and the j-th batch generated from draw counter k on
is the fresh batch of draws k + j * amount .. k + (j + 1) * amount - 1,
independent of every earlier attempt. -/
theorem main_loop_spec (size amount max_tries : Nat) (shuffles : Nat → List String)
    (data0 : Pool) (hsh : ∀ i, (shuffles i).Perm data0.statements)
    (hlen : size * size ≤ data0.statements.length) :
    ∀ (fuel t k : Nat) (data : Pool),
      data.title = data0.title → data.header = data0.header →
      data.statements.Perm data0.statements →
      (main_loop size amount max_tries shuffles t k fuel data).1.history.length ≤ fuel ∧
      ∀ j < (main_loop size amount max_tries shuffles t k fuel data).1.history.length,
        (main_loop size amount max_tries shuffles t k fuel data).1.history.getD j [] =
          fresh_batch data0 shuffles size amount (k + j * amount)
  | 0, t, k, data, ht, hh, hp => by
    refine ⟨by simp [main_loop], ?_⟩
    intro j hj
    simp [main_loop] at hj
  | fuel + 1, t, k, data, ht, hh, hp => by
    obtain ⟨hcs1, hcs2, hcs3, hcs4, hcs5⟩ :=
      create_sheets_ok size shuffles data0 hsh hlen amount k data ht hh hp
    by_cases hu : check_uniqueness (fresh_batch data0 shuffles size amount k) = true
    · refine ⟨?_, ?_⟩
      · simp [main_loop, hcs1, hu]
      · intro j hj
        simp only [main_loop, hcs1, hu, if_true] at hj ⊢
        simp only [List.length_cons, List.length_nil] at hj
        have hj0 : j = 0 := by omega
        subst hj0
        simp
    · by_cases hlast : t = max_tries - 1
      · refine ⟨?_, ?_⟩
        · simp [main_loop, hcs1, hu, hlast]
        · intro j hj
          simp only [main_loop, hcs1, hu, hlast] at hj ⊢
          simp only [Bool.false_eq_true, if_false, if_true, List.length_cons,
            List.length_nil] at hj ⊢
          have hj0 : j = 0 := by omega
          subst hj0
          simp
      · obtain ⟨ihl, ihg⟩ :=
          main_loop_spec size amount max_tries shuffles data0 hsh hlen fuel (t + 1)
            (k + amount) (create_sheets size shuffles amount k data).2.1 hcs3 hcs4 hcs5
        refine ⟨?_, ?_⟩
        · simp only [main_loop, hcs1, hcs2, hu, hlast, Bool.false_eq_true, if_false,
            List.length_cons]
          omega
        · intro j hj
          simp only [main_loop, hcs1, hcs2, hu, hlast, Bool.false_eq_true, if_false,
            List.length_cons] at hj ⊢
          match j with
          | 0 => simp
          | j + 1 =>
            have hjlt : j < (main_loop size amount max_tries shuffles (t + 1)
                (k + amount) fuel
                (create_sheets size shuffles amount k data).2.1).1.history.length := by
              omega
            have harith : k + amount + j * amount = k + (j + 1) * amount := by
              have hm : (j + 1) * amount = j * amount + amount := Nat.succ_mul j amount
              omega
            simp only [List.getD_cons_succ]
            rw [ihg j hjlt, harith]

/-- Claim C7 (confirmed): the retry loop terminates after at most max_tries
attempts, and the batch of attempt j is a brand new batch: all its
amount sheets are generated from the fresh shuffle draws
j * amount .. j * amount + amount - 1 of that attempt only, so no sheet
of a failed attempt is ever reused. -/
theorem retry_loop_bounded_fresh (size amount max_tries : Nat)
    (shuffles : Nat → List String) (data : Pool)
    (hsh : ∀ i, (shuffles i).Perm data.statements)
    (hlen : size * size ≤ data.statements.length) :
    (main_gen size amount max_tries shuffles data).1.history.length ≤ max_tries ∧
    ∀ j < (main_gen size amount max_tries shuffles data).1.history.length,
      (main_gen size amount max_tries shuffles data).1.history.getD j [] =
        fresh_batch data shuffles size amount (j * amount) := by
  have h := main_loop_spec size amount max_tries shuffles data hsh hlen max_tries 0 0
    data rfl rfl (List.Perm.refl _)
  simpa [main_gen] using h

/-- Witness for C7 at the one statement pool with the constant shuffle,
two sheets per batch and a budget of 10 tries. -/
theorem retry_loop_bounded_fresh_witness :
    (main_gen 1 2 10 shufX poolX).1.history.length ≤ 10 :=
  (retry_loop_bounded_fresh 1 2 10 shufX poolX (fun _ => List.Perm.refl _)
    (by decide)).1

/-- Claim C6 (code bug): when no attempt within max_tries yields a unique
batch, main prints the failure message announcing that the last attempt
is saved, but returns before calling create_pdf: no batch is written and
the last generated batch (here two identical one cell sheets) is
discarded with the local variable.  The pool of a single statement with
amount 2 makes every attempt fail the uniqueness check. -/
theorem generation_failure_discards_batch :
    (main_gen 1 2 10 shufX poolX).1.gen_failed = true ∧
    (main_gen 1 2 10 shufX poolX).1.pdf_written = none ∧
    (main_gen 1 2 10 shufX poolX).1.error = none ∧
    (main_gen 1 2 10 shufX poolX).1.history.getLast? =
      some [⟨"T", "H", [["x"]]⟩, ⟨"T", "H", [["x"]]⟩] :=
  ⟨rfl, rfl, rfl, rfl⟩

end Bingo
